import Mathlib

/-!
Shallow embedding of the TM_disk_mount_check repository (three Datadog-style
agent checks for macOS Time Machine) and verification of its specification
claims.

Sources embedded:
  - src/checks.d/helloworld2_timemachine_latest_backup.py
      (class Helloworld2TimeMachineLatestBackup: backup / snapshot freshness)
  - src/checks.d/helloworld2_timemachine_mount.py
      (class Helloworld2TimeMachineMount: UUID mount-presence variant)
  - src/time_machine_mount.py
      (class TimeMachineMountCheck: mountpoint-path mount-presence variant)

Modelling conventions:
  - Text is `String` at the interface and `List Char` for the character-level
    operations (Python str methods `strip`, `split`, `splitlines`, regex
    matching against the fixed pattern `\d{4}-\d{2}-\d{2}-\d{6}`).
    `pyStrip` uses the ASCII whitespace set of Python `str.strip()`;
    `pySplitlines` handles the ASCII line boundaries used by
    `str.splitlines()` (exotic Unicode boundaries are irrelevant to the
    modelled command outputs and are omitted).
  - Wall-clock instants (`datetime.now()`) are integers in microseconds on
    the proleptic-Gregorian timeline used by Python `datetime` subtraction
    (which works through `date.toordinal()`); `int(delta.total_seconds())`
    truncates toward zero, modelled by `Int.tdiv` of the microsecond
    difference by 1000000.
  - A command invocation (`subprocess.check_output`) is modelled as
    `Except String String`: either captured stdout, or the text of the
    raised exception. Internal `ValueError` texts are reproduced from the
    source's format strings; the texts produced by `datetime.strptime`
    itself are representative of the `ValueError` message, not byte-exact.
  - `datetime.strptime(s, "%Y-%m-%d-%H%M%S")` is modelled by `strptimeTM`,
    faithful on every string this program passes to it: such strings always
    begin with a full 17-character timestamp token (the backup path passes
    the regex group itself; the snapshot path passes lines that already
    passed `SNAPSHOT_TS_RE.match`), and on those `strptime` succeeds exactly
    when the token is the whole string and its fields form a valid
    datetime (month 1..12, day within the month, hour ≤ 23, minute ≤ 59,
    second ≤ 59, year ≥ 1).
  - Metric/status emission is a trace: a `List Event` in emission order.
-/

/-- Python `str.strip()` ASCII whitespace set. -/
def pyIsSpace (c : Char) : Bool :=
  c = ' ' || c = '\t' || c = '\n' || c = '\x0d' || c = '\x0b' || c = '\x0c'

/-- Drop leading Python whitespace. -/
def pyStripLeft : List Char → List Char
  | [] => []
  | c :: cs => if pyIsSpace c then pyStripLeft cs else c :: cs

/-- Python `str.strip()`: drop leading and trailing whitespace. -/
def pyStrip (s : List Char) : List Char :=
  (pyStripLeft (pyStripLeft s).reverse).reverse

/-- Python `str.split("\n")`: split on every newline, keeping empty pieces;
the empty string yields one empty piece. -/
def splitNl : List Char → List (List Char)
  | [] => [[]]
  | c :: cs =>
    if c = '\n' then [] :: splitNl cs
    else
      match splitNl cs with
      | [] => [[c]]
      | l :: ls => (c :: l) :: ls

/-- Python `str.splitlines()` on the ASCII line boundaries `\n`, `\r\n`,
`\r`, `\x0b`, `\x0c`: line terminators are not kept, and a trailing
terminator does not produce a trailing empty line. -/
def pySplitlines : List Char → List (List Char)
  | [] => []
  | '\x0d' :: '\n' :: cs => [] :: pySplitlines cs
  | c :: cs =>
    if c = '\n' || c = '\x0d' || c = '\x0b' || c = '\x0c' then [] :: pySplitlines cs
    else
      match pySplitlines cs with
      | [] => [[c]]
      | l :: ls => (c :: l) :: ls

/-- Substring containment test on character lists (Python `in` on `str`). -/
def containsSub (needle : List Char) : List Char → Bool
  | [] => needle.isEmpty
  | c :: cs => List.isPrefixOf needle (c :: cs) || containsSub needle cs

/-- Numeric value of a digit string. -/
def digitsToNat (l : List Char) : Nat :=
  l.foldl (fun a c => 10 * a + (c.toNat - '0'.toNat)) 0

/-- Consume exactly `n` decimal digits (`\d{n}` at the start of the input),
returning the digits and the rest. -/
def takeDigits : Nat → List Char → Option (List Char × List Char)
  | 0, s => some ([], s)
  | _ + 1, [] => none
  | n + 1, c :: cs =>
    if c.isDigit then
      match takeDigits n cs with
      | some (ds, rest) => some (c :: ds, rest)
      | none => none
    else none

/-- Consume one expected literal character. -/
def expectChar (c : Char) : List Char → Option (List Char)
  | [] => none
  | x :: xs => if x = c then some xs else none

/-- The broken-down fields of a parsed `YYYY-MM-DD-HHMMSS` token
(the `datetime` value resulting from `strptime`). -/
structure DT where
  year : Nat
  month : Nat
  day : Nat
  hour : Nat
  minute : Nat
  second : Nat
deriving DecidableEq, Repr

/-- Match of the fixed pattern `\d{4}-\d{2}-\d{2}-\d{6}` (both `TM_TS_RE`
and `SNAPSHOT_TS_RE` in the source compile this same pattern) anchored at
the start of the input: on success, the 17-character matched token, its
broken-down numeric fields, and the unconsumed rest of the input. -/
def tokMatch (s : List Char) : Option (List Char × DT × List Char) :=
  match takeDigits 4 s with
  | none => none
  | some (y, s1) =>
  match expectChar '-' s1 with
  | none => none
  | some s2 =>
  match takeDigits 2 s2 with
  | none => none
  | some (mo, s3) =>
  match expectChar '-' s3 with
  | none => none
  | some s4 =>
  match takeDigits 2 s4 with
  | none => none
  | some (d, s5) =>
  match expectChar '-' s5 with
  | none => none
  | some s6 =>
  match takeDigits 6 s6 with
  | none => none
  | some (hms, rest) =>
    some (y ++ '-' :: mo ++ '-' :: d ++ '-' :: hms,
          ⟨digitsToNat y, digitsToNat mo, digitsToNat d,
           digitsToNat (hms.take 2), digitsToNat ((hms.drop 2).take 2),
           digitsToNat (hms.drop 4)⟩,
          rest)

/-- `TM_TS_RE.search`: leftmost occurrence of the timestamp pattern anywhere
in the input; returns the matched token (`m.group(1)`) and its fields. -/
def tmSearch : List Char → Option (List Char × DT)
  | [] => none
  | c :: cs =>
    match tokMatch (c :: cs) with
    | some (tok, dt, _) => some (tok, dt)
    | none => tmSearch cs

/-- Gregorian leap-year rule (as used by Python `datetime`). -/
def isLeap (y : Nat) : Bool :=
  y % 4 == 0 && (y % 100 != 0 || y % 400 == 0)

/-- Number of days in a month of a given year. -/
def daysInMonth (y m : Nat) : Nat :=
  if m = 2 then (if isLeap y then 29 else 28)
  else if m = 4 || m = 6 || m = 9 || m = 11 then 30
  else 31

/-- Days in year `y` strictly before month `m`. -/
def daysBeforeMonth (y m : Nat) : Nat :=
  (List.range (m - 1)).foldl (fun a i => a + daysInMonth y (i + 1)) 0

/-- Day count of a date on the proleptic Gregorian calendar, with
0001-01-01 as day 0 (Python `date.toordinal()` minus one). -/
def toOrdinal (dt : DT) : Nat :=
  let py := dt.year - 1
  365 * py + py / 4 - py / 100 + py / 400 + daysBeforeMonth dt.year dt.month + (dt.day - 1)

/-- Seconds of a parsed datetime on the absolute timeline used by Python
`datetime` subtraction. -/
def dtToSecs (dt : DT) : Nat :=
  86400 * toOrdinal dt + 3600 * dt.hour + 60 * dt.minute + dt.second

/-- Validity of the broken-down fields as a Python `datetime`
(the checks `strptime` and the `datetime` constructor perform). -/
def validDT (dt : DT) : Bool :=
  1 ≤ dt.year && 1 ≤ dt.month && dt.month ≤ 12 &&
  1 ≤ dt.day && dt.day ≤ daysInMonth dt.year dt.month &&
  dt.hour ≤ 23 && dt.minute ≤ 59 && dt.second ≤ 59

/-- `datetime.strptime(s, "%Y-%m-%d-%H%M%S")`, on the strings this program
passes to it (always token-prefixed, see the header comment): succeeds
exactly when the whole string is one 17-character token with valid fields. -/
def strptimeTM (s : List Char) : Option DT :=
  match tokMatch s with
  | none => none
  | some (_, dt, rest) =>
    if rest.isEmpty then (if validDT dt then some dt else none) else none

/-- `age_seconds = int((now - backup_dt).total_seconds())` followed by the
`if age_seconds < 0: age_seconds = 0` clamp, with `now` in microseconds. -/
def ageSeconds (nowUs : Int) (dt : DT) : Int :=
  if Int.tdiv (nowUs - 1000000 * (dtToSecs dt : Int)) 1000000 < 0 then 0
  else Int.tdiv (nowUs - 1000000 * (dtToSecs dt : Int)) 1000000

/-- Service-check status constants of the `AgentCheck` base class. -/
inductive Status
  | ok
  | warning
  | critical
  | unknown
deriving DecidableEq, Repr

/-- One emission to the monitoring framework: `self.gauge(name, value, tags)`
or `self.service_check(name, status, message, tags)`. -/
inductive Event
  | gauge (name : String) (value : Int) (tags : List String)
  | serviceCheck (name : String) (status : Status) (message : Option String) (tags : List String)
deriving DecidableEq, Repr

/-- The tag list attached to an emission. -/
def eventTags : Event → List String
  | .gauge _ _ t => t
  | .serviceCheck _ _ _ t => t

/-- Whether an emission is a gauge (metric) emission. -/
def isGaugeEvent : Event → Bool
  | .gauge _ _ _ => true
  | .serviceCheck _ _ _ _ => false

/-- The per-invocation configuration mapping (`instance`), restricted to the
keys the three checks read: `tags` (default `[]`), `volume_uuid` and
`mountpoint` (each `none` when the key is absent, so that the source's
defaults apply). -/
structure InstanceCfg where
  tags : List String
  volume_uuid : Option String
  mountpoint : Option String

/-! ### Helloworld2TimeMachineLatestBackup
(src/checks.d/helloworld2_timemachine_latest_backup.py) -/

/-- The try-block of `_get_latest_backup_age`, as a fallible pure function:
run `tmutil latestbackup`, strip, search for the first `TM_TS_RE` match,
`strptime` the matched group, compute the clamped age. `Except.error`
carries the text of the exception the Python code would catch. -/
def latestBackupAgeE (nowUs : Int) (cmd : Except String String) : Except String Int :=
  match cmd with
  | .error e => .error e
  | .ok outRaw =>
    let out := pyStrip outRaw.data
    match tmSearch out with
    | none =>
      .error ("Could not find a Time Machine timestamp in output: " ++ String.mk out)
    | some (tok, dt) =>
      if validDT dt then .ok (ageSeconds nowUs dt)
      else
        .error ("time data " ++ String.mk tok ++ " does not match format %Y-%m-%d-%H%M%S")

/-- `_get_latest_backup_age(self, tags, now)`: returns the value returned to
`check` and the events emitted inside the method (the OK service check on
success; the CRITICAL service check with the exception text, and sentinel
-1, on any error). -/
def getLatestBackupAge (tags : List String) (nowUs : Int) (cmd : Except String String) :
    Int × List Event :=
  match latestBackupAgeE nowUs cmd with
  | .ok age =>
    (age, [.serviceCheck "helloworld2.timemachine.latest_backup" .ok none tags])
  | .error e =>
    (-1, [.serviceCheck "helloworld2.timemachine.latest_backup" .critical (some e) tags])

/-- The filtered snapshot-timestamp lines of `_get_latest_snapshot_age`:
`[line.strip() for line in out.strip().split("\n") if SNAPSHOT_TS_RE.match(line.strip())]`
where `out` is the already-stripped command output (`raw` here is the raw
output, stripped twice exactly as the source does). The filter keeps whole
trimmed lines, in original order, whenever `SNAPSHOT_TS_RE` matches at the
line start. -/
def snapshotCandidates (raw : List Char) : List (List Char) :=
  ((splitNl (pyStrip (pyStrip raw))).map pyStrip).filter (fun l => (tokMatch l).isSome)

/-- Error text of the failed `strptime` on a kept snapshot line
(representative of the `ValueError` text). -/
def snapshotParseErrMsg (latest : List Char) : String :=
  "time data " ++ String.mk latest ++ " does not match format %Y-%m-%d-%H%M%S"

/-- The try-block of `_get_latest_snapshot_age`, as a fallible pure function:
run `tmutil listlocalsnapshotdates /`, strip, fail on blank output, filter
lines to timestamp-prefixed ones, fail if none remain, `strptime` the last
kept line, compute the clamped age. -/
def latestSnapshotAgeE (nowUs : Int) (cmd : Except String String) : Except String Int :=
  match cmd with
  | .error e => .error e
  | .ok outRaw =>
    let out := pyStrip outRaw.data
    if out.isEmpty then .error "No local snapshots found"
    else
      match (snapshotCandidates outRaw.data).getLast? with
      | none => .error "No valid timestamps in local snapshots output"
      | some latest =>
        match strptimeTM latest with
        | some dt => .ok (ageSeconds nowUs dt)
        | none => .error (snapshotParseErrMsg latest)

/-- `_get_latest_snapshot_age(self, tags, now)`: value returned to `check`
plus the events emitted inside the method. -/
def getLatestSnapshotAge (tags : List String) (nowUs : Int) (cmd : Except String String) :
    Int × List Event :=
  match latestSnapshotAgeE nowUs cmd with
  | .ok age =>
    (age, [.serviceCheck "helloworld2.timemachine.latest_snapshot" .ok none tags])
  | .error e =>
    (-1, [.serviceCheck "helloworld2.timemachine.latest_snapshot" .critical (some e) tags])

/-- `Helloworld2TimeMachineLatestBackup.check(self, instance)`: the full
emission trace of one invocation. `cfgTags` is `instance.get("tags", [])`;
`nowUs` is the instant captured once by `datetime.now()`; the two `Except`
arguments are the outcomes of the two external commands. -/
def backupCheck (cfgTags : List String) (nowUs : Int)
    (latestBackupCmd listSnapshotsCmd : Except String String) : List Event :=
  let tags := cfgTags
  let b := getLatestBackupAge tags nowUs latestBackupCmd
  let s := getLatestSnapshotAge tags nowUs listSnapshotsCmd
  .gauge "helloworld2.timemachine.latest_backup_heartbeat" 1 tags ::
    b.2 ++ [.gauge "helloworld2.timemachine.latest_backup_seconds" b.1 tags] ++
    s.2 ++ [.gauge "helloworld2.timemachine.latest_snapshot_seconds" s.1 tags]

/-! ### Helloworld2TimeMachineMount
(src/checks.d/helloworld2_timemachine_mount.py) -/

/-- Default for the `volume_uuid` configuration key. -/
def defaultVolumeUuid : String := "AC05F583-4BDF-498A-AB2D-AB5A307869EC"

/-- `Helloworld2TimeMachineMount.check(self, instance)`: the full emission
trace of one invocation, given the outcome of `diskutil info <uuid>`. -/
def uuidMountCheck (inst : InstanceCfg) (diskutilCmd : Except String String) : List Event :=
  let volume_uuid := inst.volume_uuid.getD defaultVolumeUuid
  let tags := inst.tags ++ ["volume_uuid:" ++ volume_uuid]
  let heartbeat := Event.gauge "helloworld2.timemachine.heartbeat" 1 tags
  match diskutilCmd with
  | .ok _ =>
    [heartbeat,
     .gauge "helloworld2.timemachine.disk_mounted" 1 tags,
     .serviceCheck "helloworld2.timemachine.disk.mounted" .ok
       (some "Time Machine disk is mounted") tags]
  | .error e =>
    [heartbeat,
     .serviceCheck "helloworld2.timemachine.mount.check" .critical
       (some ("diskutil info failed for UUID " ++ volume_uuid ++ ": " ++ e)) tags,
     .gauge "helloworld2.timemachine.disk_mounted" 0 tags,
     .serviceCheck "helloworld2.timemachine.disk.mounted" .critical
       (some "Time Machine disk is NOT mounted") tags]

/-! ### TimeMachineMountCheck (src/time_machine_mount.py) -/

/-- Default for the `mountpoint` configuration key. -/
def defaultMountpoint : String := "/Volumes/SEAGATE TIME MACHINE 5T"

/-- One line of `mount -p` output matches the configured mountpoint:
`f" {mountpoint} " in f" {line} "` (both sides padded with single spaces so
the mountpoint is found only as an exact space-delimited field, never as a
prefix of a longer path). -/
def mountLineMatches (mountpoint line : List Char) : Bool :=
  containsSub (' ' :: mountpoint ++ [' ']) (' ' :: line ++ [' '])

/-- `TimeMachineMountCheck.check(self, instance)`: the full emission trace
of one invocation. `pathIsDir` is the result of `os.path.isdir(mountpoint)`;
`mountCmd` is the outcome of `/sbin/mount -p`. -/
def mountpointCheck (inst : InstanceCfg) (pathIsDir : Bool)
    (mountCmd : Except String String) : List Event :=
  let mountpoint := inst.mountpoint.getD defaultMountpoint
  let tags := inst.tags ++ ["mountpoint:" ++ mountpoint]
  match mountCmd with
  | .error e =>
    [.serviceCheck "timemachine.mount.check" .critical (some e) tags]
  | .ok out =>
    let isMounted := (pySplitlines out.data).any (fun line => mountLineMatches mountpoint.data line)
    let mounted : Int := if pathIsDir && isMounted then 1 else 0
    [.gauge "timemachine.disk_mounted" mounted tags,
     .serviceCheck "timemachine.disk.mounted"
       (if mounted = 1 then .ok else .critical)
       (some (if mounted = 1 then "Time Machine disk is mounted"
              else "Time Machine disk is NOT mounted")) tags]

example : pyStrip " ab c\n".data = "ab c".data := by decide
example : splitNl "a\n\nb".data = ["a".data, [], "b".data] := by decide
example : pySplitlines "a\nb\n".data = ["a".data, "b".data] := by decide
example : pySplitlines "".data = [] := by decide
example : containsSub " b ".data " a b c ".data = true := by decide
example : (tokMatch "2025-09-30-012615.backup".data).isSome = true := by decide
example : strptimeTM "2025-09-30-012615".data = some ⟨2025, 9, 30, 1, 26, 15⟩ := by decide
example : strptimeTM "2025-09-30-012615.backup".data = none := by decide
example : strptimeTM "2025-13-30-012615".data = none := by decide
example : tmSearch "/Volumes/x/2025-09-30-012615.backup".data =
    some ("2025-09-30-012615".data, ⟨2025, 9, 30, 1, 26, 15⟩) := by decide
example : dtToSecs ⟨1, 1, 1, 0, 0, 0⟩ = 0 := by decide
example : dtToSecs ⟨1, 1, 2, 0, 0, 1⟩ = 86401 := by decide
example : ageSeconds 2500000 ⟨1, 1, 1, 0, 0, 0⟩ = 2 := by decide
example : ageSeconds (-500000) ⟨1, 1, 1, 0, 0, 0⟩ = 0 := by decide

/-! ### Helper lemmas -/

/-- The clamped age is never negative. -/
theorem ageSeconds_nonneg (nowUs : Int) (dt : DT) : 0 ≤ ageSeconds nowUs dt := by
  unfold ageSeconds
  split <;> omega

/-- Every successful backup-age computation returns a clamped age. -/
theorem latestBackupAgeE_ok (nowUs : Int) (cmd : Except String String) (a : Int)
    (h : latestBackupAgeE nowUs cmd = .ok a) : ∃ dt, a = ageSeconds nowUs dt := by
  cases cmd with
  | error e => simp [latestBackupAgeE] at h
  | ok out =>
    simp only [latestBackupAgeE] at h
    rcases htm : tmSearch (pyStrip out.data) with _ | ⟨tok, dt⟩ <;> rw [htm] at h
    · simp at h
    · by_cases hv : validDT dt = true
      · simp [hv] at h
        exact ⟨dt, h.symm⟩
      · simp [hv] at h

/-- Every successful snapshot-age computation returns a clamped age. -/
theorem latestSnapshotAgeE_ok (nowUs : Int) (cmd : Except String String) (a : Int)
    (h : latestSnapshotAgeE nowUs cmd = .ok a) : ∃ dt, a = ageSeconds nowUs dt := by
  cases cmd with
  | error e => simp [latestSnapshotAgeE] at h
  | ok out =>
    simp only [latestSnapshotAgeE] at h
    split at h
    · exact absurd h (by simp)
    · split at h
      · exact absurd h (by simp)
      · split at h
        · rename_i dt hp
          exact ⟨dt, by injection h with h2; exact h2.symm⟩
        · exact absurd h (by simp)

/-! ### Claims -/

/-- Claim C1: for both freshness checks, with `now` captured at invocation
start: whenever `now ≥ T` the computed age equals `floor(now − T)` in
seconds; whenever `now < T` it is exactly 0; and it is never negative.
Both checks produce their successful age via `ageSeconds` applied to the
parsed timestamp. -/
theorem C1_age_is_clamped_floor (nowUs : Int) (dt : DT) (cmd : Except String String) :
    (1000000 * (dtToSecs dt : Int) ≤ nowUs →
      ageSeconds nowUs dt = Int.fdiv (nowUs - 1000000 * (dtToSecs dt : Int)) 1000000) ∧
    (nowUs < 1000000 * (dtToSecs dt : Int) → ageSeconds nowUs dt = 0) ∧
    0 ≤ ageSeconds nowUs dt ∧
    (∀ a, latestBackupAgeE nowUs cmd = .ok a → ∃ d, a = ageSeconds nowUs d) ∧
    (∀ a, latestSnapshotAgeE nowUs cmd = .ok a → ∃ d, a = ageSeconds nowUs d) := by
  refine ⟨?_, ?_, ageSeconds_nonneg nowUs dt,
    fun a h => latestBackupAgeE_ok nowUs cmd a h,
    fun a h => latestSnapshotAgeE_ok nowUs cmd a h⟩
  · intro h
    have hd : (0 : Int) ≤ nowUs - 1000000 * (dtToSecs dt : Int) := by omega
    have hpos : (0 : Int) ≤ 1000000 := by norm_num
    have hnn : 0 ≤ (nowUs - 1000000 * (dtToSecs dt : Int)) / 1000000 :=
      Int.ediv_nonneg hd hpos
    unfold ageSeconds
    rw [Int.tdiv_eq_ediv hd hpos, Int.fdiv_eq_ediv _ hpos, if_neg (not_lt.mpr hnn)]
  · intro h
    have hle : Int.tdiv (nowUs - 1000000 * (dtToSecs dt : Int)) 1000000 ≤ 0 := by
      have heq : nowUs - 1000000 * (dtToSecs dt : Int) =
          -(1000000 * (dtToSecs dt : Int) - nowUs) := by ring
      rw [heq, Int.neg_tdiv]
      have hnn : 0 ≤ Int.tdiv (1000000 * (dtToSecs dt : Int) - nowUs) 1000000 :=
        Int.tdiv_nonneg (by omega) (by norm_num)
      omega
    unfold ageSeconds
    split <;> omega

/-- Witness for C1 at concrete inputs: an instant 2.5 s after the epoch
instant gives age 2 (the floor), and an instant 0.5 s before it gives 0. -/
theorem C1_age_is_clamped_floor_witness :
    ageSeconds 2500000 ⟨1, 1, 1, 0, 0, 0⟩ =
      Int.fdiv (2500000 - 1000000 * (dtToSecs ⟨1, 1, 1, 0, 0, 0⟩ : Int)) 1000000 ∧
    ageSeconds (-500000) ⟨1, 1, 1, 0, 0, 0⟩ = 0 :=
  ⟨(C1_age_is_clamped_floor 2500000 ⟨1, 1, 1, 0, 0, 0⟩ (Except.error "")).1 (by decide),
   (C1_age_is_clamped_floor (-500000) ⟨1, 1, 1, 0, 0, 0⟩ (Except.error "")).2.1 (by decide)⟩

/-- Claim C2: for every freshness-check invocation in which an internal step
raises (command failure, empty output, missing match, parse failure), the
check still emits its age gauge with sentinel -1 and its service check as
CRITICAL carrying the error text; on an error-free invocation the gauge is
the non-negative age and the status OK — the gauge is -1 iff an error
occurred. Both age gauges are emitted on every invocation. -/
theorem C2_error_sentinel_iff (tags : List String) (nowUs : Int)
    (cmdB cmdS : Except String String) :
    (Event.gauge "helloworld2.timemachine.latest_backup_seconds"
        (getLatestBackupAge tags nowUs cmdB).1 tags ∈ backupCheck tags nowUs cmdB cmdS) ∧
    (Event.gauge "helloworld2.timemachine.latest_snapshot_seconds"
        (getLatestSnapshotAge tags nowUs cmdS).1 tags ∈ backupCheck tags nowUs cmdB cmdS) ∧
    (∀ e, latestBackupAgeE nowUs cmdB = .error e →
      getLatestBackupAge tags nowUs cmdB =
        (-1, [.serviceCheck "helloworld2.timemachine.latest_backup" .critical (some e) tags])) ∧
    (∀ a, latestBackupAgeE nowUs cmdB = .ok a →
      0 ≤ a ∧ getLatestBackupAge tags nowUs cmdB =
        (a, [.serviceCheck "helloworld2.timemachine.latest_backup" .ok none tags])) ∧
    ((getLatestBackupAge tags nowUs cmdB).1 = -1 ↔
      ∃ e, latestBackupAgeE nowUs cmdB = .error e) ∧
    (∀ e, latestSnapshotAgeE nowUs cmdS = .error e →
      getLatestSnapshotAge tags nowUs cmdS =
        (-1, [.serviceCheck "helloworld2.timemachine.latest_snapshot" .critical (some e) tags])) ∧
    (∀ a, latestSnapshotAgeE nowUs cmdS = .ok a →
      0 ≤ a ∧ getLatestSnapshotAge tags nowUs cmdS =
        (a, [.serviceCheck "helloworld2.timemachine.latest_snapshot" .ok none tags])) ∧
    ((getLatestSnapshotAge tags nowUs cmdS).1 = -1 ↔
      ∃ e, latestSnapshotAgeE nowUs cmdS = .error e) := by
  refine ⟨?_, ?_, ?_, ?_, ?_, ?_, ?_, ?_⟩
  · simp [backupCheck]
  · simp [backupCheck]
  · intro e he
    simp [getLatestBackupAge, he]
  · intro a ha
    obtain ⟨d, rfl⟩ := latestBackupAgeE_ok nowUs cmdB a ha
    exact ⟨ageSeconds_nonneg _ _, by simp [getLatestBackupAge, ha]⟩
  · rcases h : latestBackupAgeE nowUs cmdB with e | a
    · simp [getLatestBackupAge, h]
    · obtain ⟨d, rfl⟩ := latestBackupAgeE_ok nowUs cmdB a h
      have hnn := ageSeconds_nonneg nowUs d
      have hne : ageSeconds nowUs d ≠ -1 := by omega
      simp [getLatestBackupAge, h, hne]
  · intro e he
    simp [getLatestSnapshotAge, he]
  · intro a ha
    obtain ⟨d, rfl⟩ := latestSnapshotAgeE_ok nowUs cmdS a ha
    exact ⟨ageSeconds_nonneg _ _, by simp [getLatestSnapshotAge, ha]⟩
  · rcases h : latestSnapshotAgeE nowUs cmdS with e | a
    · simp [getLatestSnapshotAge, h]
    · obtain ⟨d, rfl⟩ := latestSnapshotAgeE_ok nowUs cmdS a h
      have hnn := ageSeconds_nonneg nowUs d
      have hne : ageSeconds nowUs d ≠ -1 := by omega
      simp [getLatestSnapshotAge, h, hne]

/-- Witness for C2: a failed backup command yields sentinel -1 and a
CRITICAL service check carrying the command's error text. -/
theorem C2_error_sentinel_iff_witness :
    getLatestBackupAge [] 0 (Except.error "command failed") =
      (-1, [Event.serviceCheck "helloworld2.timemachine.latest_backup" Status.critical
            (some "command failed") []]) :=
  (C2_error_sentinel_iff [] 0 (Except.error "command failed")
    (Except.error "command failed")).2.2.1 "command failed" rfl

/-- If the stripped snapshot output is blank, no candidate lines remain. -/
theorem snapshotCandidates_of_strip_empty (raw : List Char) (he : pyStrip raw = []) :
    snapshotCandidates raw = [] := by
  unfold snapshotCandidates
  rw [he]
  decide

/-- If candidate lines remain, the stripped snapshot output is not blank. -/
theorem strip_ne_empty_of_candidates (raw : List Char)
    (h : snapshotCandidates raw ≠ []) : (pyStrip raw).isEmpty = false := by
  rw [List.isEmpty_eq_false]
  intro he
  exact h (snapshotCandidates_of_strip_empty raw he)

/-- Claim C3: for every snapshot-listing output with at least one line whose
trimmed content starts with the timestamp pattern, the check selects as
most recent the last element of the filtered sequence in original line
order (no re-sorting), and proceeds to parse exactly that line; for the
output "2025-09-30-012615\n2025-09-30-022615\n" the selected latest
timestamp is 2025-09-30-022615. -/
theorem C3_snapshot_selects_last (nowUs : Int) (out : String)
    (h : snapshotCandidates out.data ≠ []) :
    (∃ latest, (snapshotCandidates out.data).getLast? = some latest ∧
      ((∃ dt, strptimeTM latest = some dt ∧
          latestSnapshotAgeE nowUs (.ok out) = .ok (ageSeconds nowUs dt)) ∨
       (strptimeTM latest = none ∧
          latestSnapshotAgeE nowUs (.ok out) = .error (snapshotParseErrMsg latest)))) ∧
    snapshotCandidates "2025-09-30-012615\n2025-09-30-022615\n".data =
      ["2025-09-30-012615".data, "2025-09-30-022615".data] ∧
    latestSnapshotAgeE nowUs (.ok "2025-09-30-012615\n2025-09-30-022615\n") =
      .ok (ageSeconds nowUs ⟨2025, 9, 30, 2, 26, 15⟩) := by
  refine ⟨?_, by decide, rfl⟩
  have hne := strip_ne_empty_of_candidates out.data h
  obtain ⟨latest, hl⟩ := Option.isSome_iff_exists.mp (List.getLast?_isSome.mpr h)
  refine ⟨latest, hl, ?_⟩
  rcases hp : strptimeTM latest with _ | dt
  · right
    refine ⟨rfl, ?_⟩
    simp [latestSnapshotAgeE, hne, hl, hp]
  · left
    refine ⟨dt, rfl, ?_⟩
    simp [latestSnapshotAgeE, hne, hl, hp]

/-- Witness for C3 at the concrete two-line output: the last filtered line
is selected and parses to 2025-09-30 02:26:15. -/
theorem C3_snapshot_selects_last_witness :
    ∃ latest,
      (snapshotCandidates "2025-09-30-012615\n2025-09-30-022615\n".data).getLast? =
        some latest ∧
      ((∃ dt, strptimeTM latest = some dt ∧
          latestSnapshotAgeE 0 (.ok "2025-09-30-012615\n2025-09-30-022615\n") =
            .ok (ageSeconds 0 dt)) ∨
       (strptimeTM latest = none ∧
          latestSnapshotAgeE 0 (.ok "2025-09-30-012615\n2025-09-30-022615\n") =
            .error (snapshotParseErrMsg latest))) :=
  (C3_snapshot_selects_last 0 "2025-09-30-012615\n2025-09-30-022615\n" (by decide)).1

/-- Claim C4: for the mountpoint-path variant, when the mount-table command
runs, the disk_mounted gauge is 1 exactly when BOTH the path-exists check
and the space-delimited mount-table token match succeed, else 0; gauge and
mirrored status are emitted unconditionally; with the SEAGATE table line,
mounted is 1 when the path exists and 0 when it does not. -/
theorem C4_mounted_iff_both (inst : InstanceCfg) (pathIsDir : Bool) (out : String) :
    ((pathIsDir && (pySplitlines out.data).any
        (fun line => mountLineMatches (inst.mountpoint.getD defaultMountpoint).data line)) = true ↔
      pathIsDir = true ∧ ∃ line ∈ pySplitlines out.data,
        mountLineMatches (inst.mountpoint.getD defaultMountpoint).data line = true) ∧
    mountpointCheck inst pathIsDir (.ok out) =
      [Event.gauge "timemachine.disk_mounted"
         (if pathIsDir && (pySplitlines out.data).any
              (fun line => mountLineMatches (inst.mountpoint.getD defaultMountpoint).data line)
          then 1 else 0)
         (inst.tags ++ ["mountpoint:" ++ inst.mountpoint.getD defaultMountpoint]),
       Event.serviceCheck "timemachine.disk.mounted"
         (if pathIsDir && (pySplitlines out.data).any
              (fun line => mountLineMatches (inst.mountpoint.getD defaultMountpoint).data line)
          then Status.ok else Status.critical)
         (some (if pathIsDir && (pySplitlines out.data).any
                    (fun line => mountLineMatches (inst.mountpoint.getD defaultMountpoint).data line)
                then "Time Machine disk is mounted" else "Time Machine disk is NOT mounted"))
         (inst.tags ++ ["mountpoint:" ++ inst.mountpoint.getD defaultMountpoint])] ∧
    mountpointCheck ⟨[], none, some "/Volumes/SEAGATE TIME MACHINE 5T"⟩ true
        (.ok "/dev/disk2 on /Volumes/SEAGATE TIME MACHINE 5T (apfs)") =
      [Event.gauge "timemachine.disk_mounted" 1
         ["mountpoint:/Volumes/SEAGATE TIME MACHINE 5T"],
       Event.serviceCheck "timemachine.disk.mounted" Status.ok
         (some "Time Machine disk is mounted")
         ["mountpoint:/Volumes/SEAGATE TIME MACHINE 5T"]] ∧
    mountpointCheck ⟨[], none, some "/Volumes/SEAGATE TIME MACHINE 5T"⟩ false
        (.ok "/dev/disk2 on /Volumes/SEAGATE TIME MACHINE 5T (apfs)") =
      [Event.gauge "timemachine.disk_mounted" 0
         ["mountpoint:/Volumes/SEAGATE TIME MACHINE 5T"],
       Event.serviceCheck "timemachine.disk.mounted" Status.critical
         (some "Time Machine disk is NOT mounted")
         ["mountpoint:/Volumes/SEAGATE TIME MACHINE 5T"]] := by
  refine ⟨?_, ?_, by decide, by decide⟩
  · simp [List.any_eq_true]
  · by_cases hc : (pathIsDir && (pySplitlines out.data).any
        (fun line => mountLineMatches (inst.mountpoint.getD defaultMountpoint).data line)) = true
    · simp [mountpointCheck, hc]
    · simp only [Bool.not_eq_true] at hc
      simp [mountpointCheck, hc]

/-- Claim C5: for the mountpoint-path variant, if the mount-table command
itself raises, the check emits exactly one CRITICAL status against the
check-health name timemachine.mount.check (distinct from the mounted-status
name timemachine.disk.mounted) with the error text, and returns without
emitting any gauge or any mounted status. -/
theorem C5_mount_table_failure_no_gauge (inst : InstanceCfg) (pathIsDir : Bool) (e : String) :
    mountpointCheck inst pathIsDir (.error e) =
      [Event.serviceCheck "timemachine.mount.check" Status.critical (some e)
        (inst.tags ++ ["mountpoint:" ++ inst.mountpoint.getD defaultMountpoint])] ∧
    (mountpointCheck inst pathIsDir (.error e)).any isGaugeEvent = false ∧
    ("timemachine.mount.check" == "timemachine.disk.mounted") = false :=
  ⟨rfl, rfl, rfl⟩

/-- Claim C6: for the UUID variant, a successful disk-info query yields
presence 1; a raising query yields a CRITICAL status on
helloworld2.timemachine.mount.check carrying the error message (separate
from the final mount status name), and the check still emits the presence
gauge with value 0 and a final CRITICAL "NOT mounted" status, with the
heartbeat gauge of 1 emitted first. -/
theorem C6_uuid_query_failure_continues (inst : InstanceCfg) (o e : String) :
    uuidMountCheck inst (.ok o) =
      [Event.gauge "helloworld2.timemachine.heartbeat" 1
         (inst.tags ++ ["volume_uuid:" ++ inst.volume_uuid.getD defaultVolumeUuid]),
       Event.gauge "helloworld2.timemachine.disk_mounted" 1
         (inst.tags ++ ["volume_uuid:" ++ inst.volume_uuid.getD defaultVolumeUuid]),
       Event.serviceCheck "helloworld2.timemachine.disk.mounted" Status.ok
         (some "Time Machine disk is mounted")
         (inst.tags ++ ["volume_uuid:" ++ inst.volume_uuid.getD defaultVolumeUuid])] ∧
    uuidMountCheck inst (.error e) =
      [Event.gauge "helloworld2.timemachine.heartbeat" 1
         (inst.tags ++ ["volume_uuid:" ++ inst.volume_uuid.getD defaultVolumeUuid]),
       Event.serviceCheck "helloworld2.timemachine.mount.check" Status.critical
         (some ("diskutil info failed for UUID " ++ inst.volume_uuid.getD defaultVolumeUuid
                ++ ": " ++ e))
         (inst.tags ++ ["volume_uuid:" ++ inst.volume_uuid.getD defaultVolumeUuid]),
       Event.gauge "helloworld2.timemachine.disk_mounted" 0
         (inst.tags ++ ["volume_uuid:" ++ inst.volume_uuid.getD defaultVolumeUuid]),
       Event.serviceCheck "helloworld2.timemachine.disk.mounted" Status.critical
         (some "Time Machine disk is NOT mounted")
         (inst.tags ++ ["volume_uuid:" ++ inst.volume_uuid.getD defaultVolumeUuid])] ∧
    ("helloworld2.timemachine.mount.check" == "helloworld2.timemachine.disk.mounted") = false :=
  ⟨rfl, rfl, rfl⟩

/-- Claim C7: on every invocation of the freshness check and of the UUID
mount check, regardless of outcome, a heartbeat gauge with constant value 1
is the first emission, preceding every other gauge and status. -/
theorem C7_heartbeat_first (cfgTags : List String) (nowUs : Int)
    (cmdB cmdS : Except String String) (inst : InstanceCfg) (cmdU : Except String String) :
    (backupCheck cfgTags nowUs cmdB cmdS).head? =
      some (Event.gauge "helloworld2.timemachine.latest_backup_heartbeat" 1 cfgTags) ∧
    (uuidMountCheck inst cmdU).head? =
      some (Event.gauge "helloworld2.timemachine.heartbeat" 1
        (inst.tags ++ ["volume_uuid:" ++ inst.volume_uuid.getD defaultVolumeUuid])) := by
  constructor
  · rfl
  · cases cmdU <;> rfl

/-- Counterexample to claim C8: with configuration tags [] the claim
demands every emission of every check to carry exactly one (derived) tag,
but the freshness check appends no derived tag — all its emissions carry
the configuration tags unchanged, so not every emission has one tag. -/
theorem C8_counterexample :
    ((backupCheck [] 0 (Except.error "cmd failed") (Except.error "cmd failed")).all
      (fun ev => (eventTags ev).length == 1)) = false := by
  decide

/-- Claim C8 as amended: every emission of the two mount checks carries the
configuration tags plus exactly the one derived tag (volume_uuid:<uuid>,
resp. mountpoint:<path>); every emission of the freshness check carries
exactly the configuration-supplied tags, with no derived tag appended. -/
theorem C8_amended_tag_sets (cfgTags : List String) (nowUs : Int)
    (cmdB cmdS : Except String String) (inst : InstanceCfg)
    (cmdU cmdM : Except String String) (pathIsDir : Bool) :
    ((backupCheck cfgTags nowUs cmdB cmdS).all
      (fun ev => eventTags ev == cfgTags)) = true ∧
    ((uuidMountCheck inst cmdU).all
      (fun ev => eventTags ev ==
        inst.tags ++ ["volume_uuid:" ++ inst.volume_uuid.getD defaultVolumeUuid])) = true ∧
    ((mountpointCheck inst pathIsDir cmdM).all
      (fun ev => eventTags ev ==
        inst.tags ++ ["mountpoint:" ++ inst.mountpoint.getD defaultMountpoint])) = true := by
  refine ⟨?_, ?_, ?_⟩
  · rcases hB : latestBackupAgeE nowUs cmdB with e | a <;>
      rcases hS : latestSnapshotAgeE nowUs cmdS with f | b <;>
      simp [backupCheck, getLatestBackupAge, getLatestSnapshotAge, hB, hS, eventTags]
  · cases cmdU <;> simp [uuidMountCheck, eventTags]
  · cases cmdM <;> simp [mountpointCheck, eventTags]

/-- A successful `tmSearch` result is the leftmost pattern match: it matches
at some position before which no position matches. -/
theorem tmSearch_leftmost (l : List Char) (tok : List Char) (dt : DT)
    (h : tmSearch l = some (tok, dt)) :
    ∃ i, (∃ rest, tokMatch (List.drop i l) = some (tok, dt, rest)) ∧
      ∀ j, j < i → tokMatch (List.drop j l) = none := by
  induction l with
  | nil => simp [tmSearch] at h
  | cons c cs ih =>
    rw [tmSearch] at h
    rcases hm : tokMatch (c :: cs) with _ | ⟨tok0, dt0, rest0⟩
    · rw [hm] at h
      obtain ⟨i, ⟨rest, hi⟩, hj⟩ := ih h
      refine ⟨i + 1, ⟨rest, by simpa using hi⟩, ?_⟩
      intro j hlt
      cases j with
      | zero => simpa using hm
      | succ j0 =>
        rw [List.drop_succ_cons]
        exact hj j0 (by omega)
    · rw [hm] at h
      simp only [Option.some.injEq, Prod.mk.injEq] at h
      obtain ⟨h1, h2⟩ := h
      subst h1
      subst h2
      exact ⟨0, ⟨rest0, by simpa using hm⟩, fun j hlt => absurd hlt (by omega)⟩

/-- If the pattern matches at any position, `tmSearch` finds a match. -/
theorem tmSearch_finds (l : List Char) (i : Nat)
    (h : (tokMatch (List.drop i l)).isSome = true) : (tmSearch l).isSome = true := by
  induction l generalizing i with
  | nil =>
    rw [List.drop_nil] at h
    have hnone : tokMatch ([] : List Char) = none := rfl
    rw [hnone] at h
    simp at h
  | cons c cs ih =>
    cases i with
    | zero =>
      rw [List.drop_zero] at h
      rw [tmSearch]
      rcases hm : tokMatch (c :: cs) with _ | ⟨tok0, dt0, rest0⟩
      · rw [hm] at h
        simp at h
      · simp
    | succ i0 =>
      rw [List.drop_succ_cons] at h
      have hs := ih i0 h
      rw [tmSearch]
      rcases hm : tokMatch (c :: cs) with _ | ⟨tok0, dt0, rest0⟩
      · simpa using hs
      · simp

/-- Claim C9: for every backup-query output containing a substring matching
the fixed pattern, the check extracts the first (leftmost) match and parses
it with the fixed format; the concrete output of the claim yields the token
2025-09-30-012615, which parses to 2025-09-30 01:26:15, and the whole
backup-age computation succeeds with the corresponding clamped age. -/
theorem C9_first_match_and_parse (l : List Char) (nowUs : Int) :
    (∀ tok dt, tmSearch l = some (tok, dt) →
      ∃ i, (∃ rest, tokMatch (List.drop i l) = some (tok, dt, rest)) ∧
        ∀ j, j < i → tokMatch (List.drop j l) = none) ∧
    (∀ i, (tokMatch (List.drop i l)).isSome = true → (tmSearch l).isSome = true) ∧
    tmSearch "/Volumes/.timemachine/ABCD/2025-09-30-012615.backup/...".data =
      some ("2025-09-30-012615".data, ⟨2025, 9, 30, 1, 26, 15⟩) ∧
    strptimeTM "2025-09-30-012615".data = some ⟨2025, 9, 30, 1, 26, 15⟩ ∧
    latestBackupAgeE nowUs (.ok "/Volumes/.timemachine/ABCD/2025-09-30-012615.backup/...") =
      .ok (ageSeconds nowUs ⟨2025, 9, 30, 1, 26, 15⟩) :=
  ⟨fun tok dt h => tmSearch_leftmost l tok dt h,
   fun i h => tmSearch_finds l i h,
   by decide, by decide, rfl⟩

/-- Witness for C9: at the claim's concrete output, the extracted token is
the leftmost pattern match. -/
theorem C9_first_match_and_parse_witness :
    ∃ i, (∃ rest, tokMatch
        (List.drop i "/Volumes/.timemachine/ABCD/2025-09-30-012615.backup/...".data) =
        some ("2025-09-30-012615".data, ⟨2025, 9, 30, 1, 26, 15⟩, rest)) ∧
      ∀ j, j < i → tokMatch
        (List.drop j "/Volumes/.timemachine/ABCD/2025-09-30-012615.backup/...".data) = none :=
  (C9_first_match_and_parse "/Volumes/.timemachine/ABCD/2025-09-30-012615.backup/...".data 0).1
    "2025-09-30-012615".data ⟨2025, 9, 30, 1, 26, 15⟩ (by decide)

/-- Claim C10 (implicit): the snapshot filter keeps the entire trimmed line
whenever it merely starts with a timestamp token (anchored at the start,
not the end), and the whole kept line is what gets parsed; hence whenever
the last kept line carries trailing text after the token, parsing fails and
the check reports CRITICAL with gauge -1 even when earlier lines are bare
valid timestamps, as in the concrete two-line output below. -/
theorem C10_trailing_text_fails (nowUs : Int) (tags : List String) (out : String) :
    (∀ latest tok dt rest,
      (snapshotCandidates out.data).getLast? = some latest →
      tokMatch latest = some (tok, dt, rest) → rest.isEmpty = false →
      latestSnapshotAgeE nowUs (.ok out) = .error (snapshotParseErrMsg latest)) ∧
    snapshotCandidates "2025-09-30-012615\n2025-09-30-022615.backup".data =
      ["2025-09-30-012615".data, "2025-09-30-022615.backup".data] ∧
    getLatestSnapshotAge tags nowUs (.ok "2025-09-30-012615\n2025-09-30-022615.backup") =
      (-1, [Event.serviceCheck "helloworld2.timemachine.latest_snapshot" Status.critical
            (some (snapshotParseErrMsg "2025-09-30-022615.backup".data)) tags]) := by
  refine ⟨?_, by decide, rfl⟩
  intro latest tok dt rest hl hm hr
  have hcand : snapshotCandidates out.data ≠ [] :=
    List.getLast?_isSome.mp (by rw [hl]; rfl)
  have hne := strip_ne_empty_of_candidates out.data hcand
  have hnone : strptimeTM latest = none := by
    rw [strptimeTM, hm]
    simp [hr]
  simp [latestSnapshotAgeE, hne, hl, hnone]

/-- Witness for C10: at the concrete two-line output whose last kept line is
2025-09-30-022615.backup, the parse fails with the corresponding error. -/
theorem C10_trailing_text_fails_witness :
    latestSnapshotAgeE 0 (.ok "2025-09-30-012615\n2025-09-30-022615.backup") =
      .error (snapshotParseErrMsg "2025-09-30-022615.backup".data) :=
  (C10_trailing_text_fails 0 [] "2025-09-30-012615\n2025-09-30-022615.backup").1
    "2025-09-30-022615.backup".data "2025-09-30-022615".data
    ⟨2025, 9, 30, 2, 26, 15⟩ ".backup".data (by decide) (by decide) (by decide)
